import Mathlib

/-!
Verification of the process-suspension and game-detection engine of
OpenGameBoost (src/services/suspend_service.py and
src/services/game_detector.py), as a shallow embedding.

Modelling conventions:
* A process identifier (PID) is a `Nat`; an executable name is a `String`.
* The operating-system facilities the service calls into (psutil process
  enumeration, `OpenProcess`, `NtSuspendProcess`, `NtResumeProcess`,
  `os.getpid`) are collected in an `Env` record of oracles; the code under
  verification never chooses their outcomes, it only branches on them.
* Python `set` objects are modelled as duplicate-free `List`s in insertion
  order: `add` appends when absent, `discard` filters.  Python iterates a
  `set` in an unspecified order; this model fixes insertion order, which is
  irrelevant to every property proved below (the claims only constrain
  single-element diffs, counts and membership).
* Python attribute semantics matter here: in `SuspendService.__init__` the
  boolean toggles `suspend_explorer`, `suspend_browsers`,
  `suspend_launchers` are instance attributes that shadow the class methods
  of the same names, so `self.suspend_explorer()` (etc.) inside
  `activate_game_mode` raises `TypeError: bool object is not callable`.
  The embedding of `activate_game_mode` therefore returns
  `Except PyError ...` and takes the `.error` branch exactly where the
  Python call would raise.
* `activate_game_mode` additionally returns the list of PIDs on which the
  suspend primitive (`_suspend_process`) was invoked, in call order, so
  that per-identifier invocation counts can be stated.
-/

namespace OpenGameBoost

/-- One row of a psutil enumeration: `{identifier, executable name}`
(spec §3 ProcessRecord; psutil `process_iter(['pid', 'name'])`). -/
structure ProcessRecord where
  pid : Nat
  name : String
deriving Repr, DecidableEq

/-- The operating-system world the services call into.  `openOk pid` is
whether `OpenProcess` yields a nonzero handle for `pid`; `suspendOk pid`
(resp. `resumeOk pid`) is whether `NtSuspendProcess` (resp.
`NtResumeProcess`) returns `STATUS_SUCCESS` on that handle; `ownPid`
is the caller's own process identifier (`os.getpid()`). -/
structure Env where
  psutil_available : Bool
  ctypes_available : Bool
  procs : List ProcessRecord
  openOk : Nat → Bool
  suspendOk : Nat → Bool
  resumeOk : Nat → Bool
  ownPid : Nat

/-- Python `str.lower()` (ASCII case folding, which coincides with
Python's behaviour on every executable name occurring in the catalogs).
Defined through the character list so that it reduces inside the
kernel. -/
def pyLower (s : String) : String := String.mk (s.toList.map Char.toLower)

/-- Python `set.add` on the insertion-ordered list model. -/
def pySetAdd {α : Type} [DecidableEq α] (s : List α) (x : α) : List α :=
  if x ∈ s then s else s ++ [x]

/-- Python `set.discard` on the insertion-ordered list model. -/
def pySetDiscard {α : Type} [DecidableEq α] (s : List α) (x : α) : List α :=
  s.filter (fun y => y ≠ x)

/-- The exception `activate_game_mode` actually raises when a boolean
toggle attribute shadows the method it tries to call
(`TypeError: bool object is not callable`). -/
inductive PyError where
  | typeError
deriving Repr, DecidableEq

instance {ε α : Type} [DecidableEq ε] [DecidableEq α] :
    DecidableEq (Except ε α) := fun x y =>
  match x, y with
  | .ok a, .ok b =>
    if h : a = b then isTrue (by rw [h])
    else isFalse (by intro hc; cases hc; exact h rfl)
  | .error a, .error b =>
    if h : a = b then isTrue (by rw [h])
    else isFalse (by intro hc; cases hc; exact h rfl)
  | .ok _, .error _ => isFalse (by intro hc; cases hc)
  | .error _, .ok _ => isFalse (by intro hc; cases hc)

/-- `BROWSER_PROCESSES` from suspend_service.py. -/
def BROWSER_PROCESSES : List String :=
  ["chrome.exe", "firefox.exe", "msedge.exe", "opera.exe", "brave.exe",
   "vivaldi.exe", "waterfox.exe", "iexplore.exe", "safari.exe",
   "chrome_crashpad_handler.exe", "firefox_crashpad_handler.exe"]

/-- `LAUNCHER_PROCESSES` from suspend_service.py. -/
def LAUNCHER_PROCESSES : List String :=
  ["steam.exe", "steamwebhelper.exe", "steamservice.exe",
   "EpicGamesLauncher.exe", "EpicWebHelper.exe",
   "Battle.net.exe", "Agent.exe",
   "EADesktop.exe", "EABackgroundService.exe", "Origin.exe",
   "UbisoftConnect.exe", "upc.exe",
   "GalaxyClient.exe", "GalaxyClientService.exe",
   "XboxPcApp.exe", "XboxPcAppFT.exe",
   "Rockstar-Launcher.exe",
   "RiotClientServices.exe"]

/-- `BACKGROUND_PROCESSES` from suspend_service.py. -/
def BACKGROUND_PROCESSES : List String :=
  ["Discord.exe", "Slack.exe", "Teams.exe", "Zoom.exe", "Skype.exe",
   "Spotify.exe", "iTunes.exe",
   "OneDrive.exe", "Dropbox.exe", "GoogleDriveFS.exe",
   "iCUE.exe", "NZXT CAM.exe", "RazerCentral.exe"]

/-- The mutable state of a `SuspendService` instance.  The first five
fields are the instance attributes set in `__init__`; note that
`suspend_explorer`, `suspend_browsers` and `suspend_launchers` are the
boolean toggle attributes which, in Python, shadow the class methods of
the same names. -/
structure SuspendService where
  enabled : Bool
  suspend_explorer : Bool
  suspend_browsers : Bool
  suspend_launchers : Bool
  suspend_background : Bool
  suspended_pids : List Nat
  explorer_pid : Option Nat
deriving Repr, DecidableEq

namespace SuspendService

/-- `SuspendService.__init__`: default toggle values and empty tracking
state (`_suspended_pids = set()`, `_explorer_pid = None`). -/
def init : SuspendService :=
  { enabled := true
    suspend_explorer := true
    suspend_browsers := true
    suspend_launchers := true
    suspend_background := false
    suspended_pids := []
    explorer_pid := none }

/-- `SuspendService._suspend_process(pid)`: open a handle; on open failure
return `False` with no state change; on `NtSuspendProcess` success add the
pid to `_suspended_pids` and return `True`; otherwise return `False`.
The `finally: CloseHandle` has no observable effect in this model. -/
def suspendProcess (env : Env) (st : SuspendService) (pid : Nat) :
    Bool × SuspendService :=
  if !env.ctypes_available then (false, st)
  else if !env.openOk pid then (false, st)
  else if env.suspendOk pid then
    (true, { st with suspended_pids := pySetAdd st.suspended_pids pid })
  else (false, st)

/-- `SuspendService._resume_process(pid)`: open a handle; on open failure
return `False` with no state change; on `NtResumeProcess` success discard
the pid from `_suspended_pids` and return `True`; otherwise return `False`
leaving the pid tracked. -/
def resumeProcess (env : Env) (st : SuspendService) (pid : Nat) :
    Bool × SuspendService :=
  if !env.ctypes_available then (false, st)
  else if !env.openOk pid then (false, st)
  else if env.resumeOk pid then
    (true, { st with suspended_pids := pySetDiscard st.suspended_pids pid })
  else (false, st)

/-- Whether a `_suspend_process` call on `pid` succeeds (this depends only
on the environment, never on the service state). -/
def suspendSucceeds (env : Env) (pid : Nat) : Bool :=
  env.ctypes_available && env.openOk pid && env.suspendOk pid

/-- Whether a `_resume_process` call on `pid` succeeds (this depends only
on the environment, never on the service state). -/
def resumeSucceeds (env : Env) (pid : Nat) : Bool :=
  env.ctypes_available && env.openOk pid && env.resumeOk pid

/-- `SuspendService._get_pids_by_name(process_names)`: all pids whose
executable name matches one of `process_names` case-insensitively (empty
names are skipped by the truthiness guard `if proc.info['name']`).  No
filtering of the caller's own pid takes place. -/
def getPidsByName (env : Env) (process_names : List String) : List Nat :=
  if !env.psutil_available then []
  else
    ((env.procs.filter (fun p =>
        p.name ≠ "" ∧ pyLower p.name ∈ process_names.map pyLower)).map
      ProcessRecord.pid)

/-- `SuspendService.resume_explorer()`: if `_explorer_pid` is truthy
(Python: `None` and `0` are falsy), resume it; only on a successful resume
is `_explorer_pid` cleared to `None`.  Returns `True` when nothing was
tracked. -/
def resume_explorer (env : Env) (st : SuspendService) :
    Bool × SuspendService :=
  match st.explorer_pid with
  | none => (true, st)
  | some pid =>
    if pid = 0 then (true, st)
    else
      let r := resumeProcess env st pid
      if r.1 then (true, { r.2 with explorer_pid := none })
      else (false, r.2)

/-- The `{"suspended": _, "failed": _}` dictionary returned by the batch
suspension helpers. -/
structure SuspendCounts where
  suspended : Nat
  failed : Nat
deriving Repr, DecidableEq

/-- The loop body shared by `suspend_browsers` / `suspend_launchers` /
`suspend_background_apps`: attempt `_suspend_process` on each pid in
order, incrementing the success or failure count. -/
def suspendBatch (env : Env) (pids : List Nat) (st : SuspendService)
    (acc : SuspendCounts) : SuspendCounts × SuspendService :=
  match pids with
  | [] => (acc, st)
  | pid :: rest =>
    let r := suspendProcess env st pid
    if r.1 then
      suspendBatch env rest r.2 { acc with suspended := acc.suspended + 1 }
    else
      suspendBatch env rest r.2 { acc with failed := acc.failed + 1 }

/-- `SuspendService.suspend_background_apps()`: resolve
`BACKGROUND_PROCESSES` to pids and attempt to suspend each.  The third
component is the list of pids on which `_suspend_process` was invoked, in
call order (exactly the resolved list). -/
def suspend_background_apps (env : Env) (st : SuspendService) :
    SuspendCounts × SuspendService × List Nat :=
  let pids := getPidsByName env BACKGROUND_PROCESSES
  let r := suspendBatch env pids st ⟨0, 0⟩
  (r.1, r.2, pids)

/-- The dictionary `activate_game_mode` returns when it does not raise:
either `{"status": "disabled"}` or the full
`{"status": "activated", ...}` record with per-category counts and the
computed total. -/
inductive ActivateReturn where
  | disabled
  | activated (explorer_suspended : Bool) (browsers_suspended : Nat)
      (launchers_suspended : Nat) (background_suspended : Nat)
      (total_suspended : Nat)
deriving Repr, DecidableEq

/-- `SuspendService.activate_game_mode()` with Python attribute-lookup
semantics.  If `enabled` is falsy it returns `{"status": "disabled"}`.
Otherwise each truthy toggle among `suspend_explorer`, `suspend_browsers`,
`suspend_launchers` makes the source call the boolean attribute
(`self.suspend_explorer()` etc.), which raises
`TypeError: bool object is not callable` — modelled as `.error .typeError`.
Only the background branch calls a real method
(`suspend_background_apps`), because only there do the attribute name
(`suspend_background`) and the method name (`suspend_background_apps`)
differ.  The `List Nat` component is the trace of pids passed to
`_suspend_process`. -/
def activate_game_mode (env : Env) (st : SuspendService) :
    Except PyError (ActivateReturn × SuspendService × List Nat) :=
  if !st.enabled then .ok (.disabled, st, [])
  else if st.suspend_explorer then .error .typeError
  else if st.suspend_browsers then .error .typeError
  else if st.suspend_launchers then .error .typeError
  else if st.suspend_background then
    let r := suspend_background_apps env st
    .ok (.activated false 0 0 r.1.suspended (0 + r.1.suspended), r.2.1, r.2.2)
  else .ok (.activated false 0 0 0 0, st, [])

/-- The `{"status": "deactivated", "resumed": _, "failed": _}` dictionary
returned by `deactivate_game_mode`. -/
structure DeactivateReturn where
  resumed : Nat
  failed : Nat
deriving Repr, DecidableEq

/-- The loop of `deactivate_game_mode` over
`list(self._suspended_pids)`: attempt `_resume_process` on each pid in
order, incrementing the resumed or failed count. -/
def resumeBatch (env : Env) (pids : List Nat) (st : SuspendService)
    (acc : DeactivateReturn) : DeactivateReturn × SuspendService :=
  match pids with
  | [] => (acc, st)
  | pid :: rest =>
    let r := resumeProcess env st pid
    if r.1 then
      resumeBatch env rest r.2 { acc with resumed := acc.resumed + 1 }
    else
      resumeBatch env rest r.2 { acc with failed := acc.failed + 1 }

/-- `SuspendService.deactivate_game_mode()`: if `_explorer_pid` is truthy,
call `resume_explorer` first and count its outcome; then snapshot the
(possibly updated) `_suspended_pids` and attempt `_resume_process` on each
member, counting successes and failures. -/
def deactivate_game_mode (env : Env) (st : SuspendService) :
    DeactivateReturn × SuspendService :=
  let r0 : DeactivateReturn × SuspendService :=
    match st.explorer_pid with
    | none => (⟨0, 0⟩, st)
    | some pid =>
      if pid = 0 then (⟨0, 0⟩, st)
      else
        let r := resume_explorer env st
        if r.1 then (⟨1, 0⟩, r.2) else (⟨0, 1⟩, r.2)
  resumeBatch env r0.2.suspended_pids r0.2 r0.1

end SuspendService

/-- `SUPPORTED_GAMES` from game_detector.py, in the source dictionary's
insertion order (Python dicts iterate in insertion order). -/
def SUPPORTED_GAMES : List (String × List String) :=
  [("Call of Duty",
    ["cod.exe", "ModernWarfare.exe", "BlackOpsColdWar.exe", "cod.exe"]),
   ("Fortnite",
    ["FortniteClient-Win64-Shipping.exe", "FortniteLauncher.exe"]),
   ("Apex Legends", ["r5apex.exe"]),
   ("Counter-Strike 2", ["cs2.exe"]),
   ("Valheim", ["valheim.exe"]),
   ("DOTA 2", ["dota2.exe"]),
   ("League of Legends", ["League of Legends.exe", "LeagueClient.exe"]),
   ("Overwatch", ["Overwatch.exe"]),
   ("Valorant", ["VALORANT-Win64-Shipping.exe"]),
   ("GTA V", ["GTA5.exe"]),
   ("Red Dead Redemption 2", ["RDR2.exe"]),
   ("Cyberpunk 2077", ["Cyberpunk2077.exe"]),
   ("Minecraft", ["javaw.exe", "Minecraft.Windows.exe"]),
   ("Elden Ring", ["eldenring.exe"]),
   ("Baldur's Gate 3", ["bg3.exe", "bg3_dx11.exe"]),
   ("Diablo IV", ["Diablo IV.exe"]),
   ("Path of Exile", ["PathOfExile_x64.exe", "PathOfExileSteam.exe"]),
   ("World of Warcraft", ["Wow.exe", "WowClassic.exe"])]

/-- A notification delivered through a registered detector callback:
`on_game_detected(game)` or `on_game_closed(game)`. -/
inductive GameEvent where
  | detected (game : String)
  | closed (game : String)
deriving Repr, DecidableEq

/-- The state of a `GameDetectorService` instance that `_check_games`
reads or writes.  The callback slots `on_game_detected` /
`on_game_closed` are `None` or a function in the source; only their
truthiness is observable to `_check_games`, modelled by the two `Bool`
fields. -/
structure GameDetectorService where
  auto_optimize : Bool
  has_on_game_detected : Bool
  has_on_game_closed : Bool
  detected_games : List String
deriving Repr, DecidableEq

namespace GameDetectorService

/-- The inner catalog scan of `_check_games` for one process name: the
first game (in `SUPPORTED_GAMES` order) whose executable-name list
contains the name case-insensitively; the `break` makes a process match
at most one game. -/
def matchGame (name : String) : Option String :=
  (SUPPORTED_GAMES.find? (fun g =>
    pyLower name ∈ g.2.map pyLower)).map Prod.fst

/-- The `current_games` set built by `_check_games` from one enumeration:
every non-empty process name is matched against the catalog and the
matched display name is added to the set (insertion-ordered model). -/
def currentGames (procs : List ProcessRecord) : List String :=
  procs.foldl (fun acc p =>
    if p.name ≠ "" then
      match matchGame p.name with
      | some g => pySetAdd acc g
      | none => acc
    else acc) []

/-- `GameDetectorService._check_games()` over one process snapshot.
Returns the list of callback notifications emitted, in emission order
(all `detected` events before all `closed` events, as in the source),
and the updated state.  A `detected` notification is emitted for a newly
present game only under `if self.auto_optimize and self.on_game_detected`;
a `closed` notification for a newly absent game only under
`if self.on_game_closed`.  The stored `detected_games` is replaced
wholesale by the new set (`list(current_games)`). -/
def checkGames (psutil_available : Bool) (procs : List ProcessRecord)
    (st : GameDetectorService) : List GameEvent × GameDetectorService :=
  if !psutil_available then ([], st)
  else
    let current_games := currentGames procs
    let previous_games := st.detected_games
    let detectedEvents :=
      (current_games.filter (fun g => g ∉ previous_games)).filterMap
        (fun g =>
          if st.auto_optimize && st.has_on_game_detected then
            some (GameEvent.detected g)
          else none)
    let closedEvents :=
      (previous_games.filter (fun g => g ∉ current_games)).filterMap
        (fun g =>
          if st.has_on_game_closed then some (GameEvent.closed g)
          else none)
    (detectedEvents ++ closedEvents,
     { st with detected_games := current_games })

end GameDetectorService

/-! ### Helper lemmas -/

namespace SuspendService

theorem suspendProcess_fst (env : Env) (st : SuspendService) (pid : Nat) :
    (suspendProcess env st pid).1 = suspendSucceeds env pid := by
  cases hc : env.ctypes_available <;> cases ho : env.openOk pid <;>
    cases hs : env.suspendOk pid <;>
      simp [suspendProcess, suspendSucceeds, hc, ho, hs]

theorem suspendProcess_snd (env : Env) (st : SuspendService) (pid : Nat) :
    (suspendProcess env st pid).2 =
      if suspendSucceeds env pid then
        { st with suspended_pids := pySetAdd st.suspended_pids pid }
      else st := by
  cases hc : env.ctypes_available <;> cases ho : env.openOk pid <;>
    cases hs : env.suspendOk pid <;>
      simp [suspendProcess, suspendSucceeds, hc, ho, hs]

theorem resumeProcess_fst (env : Env) (st : SuspendService) (pid : Nat) :
    (resumeProcess env st pid).1 = resumeSucceeds env pid := by
  cases hc : env.ctypes_available <;> cases ho : env.openOk pid <;>
    cases hr : env.resumeOk pid <;>
      simp [resumeProcess, resumeSucceeds, hc, ho, hr]

theorem resumeProcess_snd (env : Env) (st : SuspendService) (pid : Nat) :
    (resumeProcess env st pid).2 =
      if resumeSucceeds env pid then
        { st with suspended_pids := pySetDiscard st.suspended_pids pid }
      else st := by
  cases hc : env.ctypes_available <;> cases ho : env.openOk pid <;>
    cases hr : env.resumeOk pid <;>
      simp [resumeProcess, resumeSucceeds, hc, ho, hr]

/-- The batch suspension loop touches only `suspended_pids`: every other
field of the state is preserved. -/
theorem suspendBatch_fields (env : Env) (pids : List Nat) :
    ∀ (st : SuspendService) (acc : SuspendCounts),
      (suspendBatch env pids st acc).2.enabled = st.enabled ∧
      (suspendBatch env pids st acc).2.suspend_explorer = st.suspend_explorer ∧
      (suspendBatch env pids st acc).2.suspend_browsers = st.suspend_browsers ∧
      (suspendBatch env pids st acc).2.suspend_launchers = st.suspend_launchers ∧
      (suspendBatch env pids st acc).2.suspend_background = st.suspend_background ∧
      (suspendBatch env pids st acc).2.explorer_pid = st.explorer_pid := by
  induction pids with
  | nil => intro st acc; simp [suspendBatch]
  | cons pid rest ih =>
    intro st acc
    simp only [suspendBatch]
    cases hs : (suspendProcess env st pid).1 <;>
      simp only [if_true, if_false, Bool.false_eq_true, ite_false, ite_true] <;>
        rw [suspendProcess_snd] <;> cases hss : suspendSucceeds env pid <;>
          simp only [if_true, if_false, Bool.false_eq_true, ite_false, ite_true] <;>
            first
              | exact ih st _
              | exact ih { st with suspended_pids := pySetAdd st.suspended_pids pid } _

/-- The batch resume loop preserves the shell identifier and every toggle
field. -/
theorem resumeBatch_fields (env : Env) (pids : List Nat) :
    ∀ (st : SuspendService) (acc : DeactivateReturn),
      (resumeBatch env pids st acc).2.enabled = st.enabled ∧
      (resumeBatch env pids st acc).2.suspend_explorer = st.suspend_explorer ∧
      (resumeBatch env pids st acc).2.suspend_browsers = st.suspend_browsers ∧
      (resumeBatch env pids st acc).2.suspend_launchers = st.suspend_launchers ∧
      (resumeBatch env pids st acc).2.suspend_background = st.suspend_background ∧
      (resumeBatch env pids st acc).2.explorer_pid = st.explorer_pid := by
  induction pids with
  | nil => intro st acc; simp [resumeBatch]
  | cons pid rest ih =>
    intro st acc
    simp only [resumeBatch]
    cases hs : (resumeProcess env st pid).1 <;>
      simp only [if_true, if_false, Bool.false_eq_true, ite_false, ite_true] <;>
        rw [resumeProcess_snd] <;> cases hrs : resumeSucceeds env pid <;>
          simp only [if_true, if_false, Bool.false_eq_true, ite_false, ite_true] <;>
            first
              | exact ih st _
              | exact ih { st with suspended_pids := pySetDiscard st.suspended_pids pid } _

/-- After the batch resume loop, the tracked set is the original set with
every listed identifier whose resume succeeds removed; identifiers whose
resume fails remain tracked. -/
theorem resumeBatch_suspended_pids (env : Env) (pids : List Nat) :
    ∀ (st : SuspendService) (acc : DeactivateReturn),
      (resumeBatch env pids st acc).2.suspended_pids
        = st.suspended_pids.filter
            (fun p => !(pids.contains p && resumeSucceeds env p)) := by
  induction pids with
  | nil => intro st acc; simp [resumeBatch]
  | cons pid rest ih =>
    intro st acc
    simp only [resumeBatch]
    rw [show ((let r := resumeProcess env st pid;
        if r.1 then resumeBatch env rest r.2 { acc with resumed := acc.resumed + 1 }
        else resumeBatch env rest r.2 { acc with failed := acc.failed + 1 }))
      = (if (resumeProcess env st pid).1 then
          resumeBatch env rest (resumeProcess env st pid).2
            { acc with resumed := acc.resumed + 1 }
        else
          resumeBatch env rest (resumeProcess env st pid).2
            { acc with failed := acc.failed + 1 }) from rfl]
    rw [resumeProcess_fst, resumeProcess_snd]
    cases hrs : resumeSucceeds env pid <;>
      simp only [if_true, if_false, Bool.false_eq_true, ite_false, ite_true]
    · rw [ih st]
      apply List.filter_congr
      intro a _
      by_cases hap : a = pid
      · subst hap
        simp [hrs]
      · simp [List.contains_cons, hap, Ne.symm hap]
    · rw [ih]
      simp only [pySetDiscard, List.filter_filter]
      apply List.filter_congr
      intro a _
      by_cases hap : a = pid
      · subst hap
        simp [hrs]
      · simp [List.contains_cons, hap, Ne.symm hap]

/-- The resumed/failed counters produced by the batch resume loop. -/
theorem resumeBatch_counts (env : Env) (pids : List Nat) :
    ∀ (st : SuspendService) (acc : DeactivateReturn),
      (resumeBatch env pids st acc).1.resumed
        = acc.resumed + pids.countP (fun p => resumeSucceeds env p) ∧
      (resumeBatch env pids st acc).1.failed
        = acc.failed + pids.countP (fun p => !resumeSucceeds env p) := by
  induction pids with
  | nil => intro st acc; simp [resumeBatch]
  | cons pid rest ih =>
    intro st acc
    simp only [resumeBatch]
    rw [show ((let r := resumeProcess env st pid;
        if r.1 then resumeBatch env rest r.2 { acc with resumed := acc.resumed + 1 }
        else resumeBatch env rest r.2 { acc with failed := acc.failed + 1 }))
      = (if (resumeProcess env st pid).1 then
          resumeBatch env rest (resumeProcess env st pid).2
            { acc with resumed := acc.resumed + 1 }
        else
          resumeBatch env rest (resumeProcess env st pid).2
            { acc with failed := acc.failed + 1 }) from rfl]
    rw [resumeProcess_fst]
    cases hrs : resumeSucceeds env pid <;>
      simp only [if_true, if_false, Bool.false_eq_true, ite_false, ite_true] <;>
        rw [(ih _ _).1, (ih _ _).2] <;> simp [List.countP_cons, hrs] <;> omega

/-- Shape of `activate_game_mode` on the toggle combinations that do not
raise: it succeeds, its suspend-primitive trace is determined by the
environment and the `suspend_background` toggle alone (never by the
tracked set), and the toggles survive into the result state. -/
theorem activate_nonraising_shape (env : Env) (st : SuspendService)
    (h1 : st.enabled = true) (h2 : st.suspend_explorer = false)
    (h3 : st.suspend_browsers = false) (h4 : st.suspend_launchers = false) :
    ∃ r₁ st₁,
      activate_game_mode env st
        = .ok (r₁, st₁,
            if st.suspend_background then
              getPidsByName env BACKGROUND_PROCESSES
            else []) ∧
      st₁.enabled = true ∧ st₁.suspend_explorer = false ∧
      st₁.suspend_browsers = false ∧ st₁.suspend_launchers = false ∧
      st₁.suspend_background = st.suspend_background := by
  by_cases hb : st.suspend_background = true
  · have hfields :=
      suspendBatch_fields env (getPidsByName env BACKGROUND_PROCESSES) st ⟨0, 0⟩
    refine ⟨.activated false 0 0
        (suspendBatch env (getPidsByName env BACKGROUND_PROCESSES) st
          ⟨0, 0⟩).1.suspended
        (0 + (suspendBatch env (getPidsByName env BACKGROUND_PROCESSES) st
          ⟨0, 0⟩).1.suspended),
      (suspendBatch env (getPidsByName env BACKGROUND_PROCESSES) st ⟨0, 0⟩).2,
      ?_, ?_, ?_, ?_, ?_, ?_⟩
    · simp [activate_game_mode, suspend_background_apps, h1, h2, h3, h4, hb]
    · rw [hfields.1, h1]
    · rw [hfields.2.1, h2]
    · rw [hfields.2.2.1, h3]
    · rw [hfields.2.2.2.1, h4]
    · rw [hfields.2.2.2.2.1]
  · have hb' : st.suspend_background = false := by
      cases hbv : st.suspend_background
      · rfl
      · exact absurd hbv hb
    refine ⟨.activated false 0 0 0 0, st, ?_, h1, h2, h3, h4, rfl⟩
    simp [activate_game_mode, h1, h2, h3, h4, hb']

end SuspendService

/-! ### Concrete fixtures used by the claim theorems -/

/-- A world with one Discord process (pid 5) in which every handle open,
suspend and resume succeeds. -/
def envC2 : Env :=
  { psutil_available := true, ctypes_available := true,
    procs := [⟨5, "Discord.exe"⟩], openOk := fun _ => true,
    suspendOk := fun _ => true, resumeOk := fun _ => true, ownPid := 1 }

/-- A freshly constructed service reconfigured so that only the
background category is requested (the only reachable category). -/
def stC2 : SuspendService :=
  { SuspendService.init with
    suspend_explorer := false, suspend_browsers := false,
    suspend_launchers := false, suspend_background := true }

/-- A world in which every resume attempt fails (for example the target
processes can be opened but `NtResumeProcess` reports an error). -/
def envC3 : Env :=
  { psutil_available := true, ctypes_available := true, procs := [],
    openOk := fun _ => true, suspendOk := fun _ => true,
    resumeOk := fun _ => false, ownPid := 1 }

/-- A session that has suspended pid 5 and tracks no shell process. -/
def stC3 : SuspendService :=
  { SuspendService.init with suspended_pids := [5] }

/-- A world in which resuming pid 6 succeeds but resuming pid 5 fails. -/
def envC3w : Env :=
  { psutil_available := true, ctypes_available := true, procs := [],
    openOk := fun _ => true, suspendOk := fun _ => true,
    resumeOk := fun p => p == 6, ownPid := 1 }

/-- A session tracking pids 5 and 6 and no shell process. -/
def stC3w : SuspendService :=
  { SuspendService.init with suspended_pids := [5, 6] }

/-- A world in which every resume attempt fails. -/
def envC4 : Env :=
  { psutil_available := true, ctypes_available := true, procs := [],
    openOk := fun _ => true, suspendOk := fun _ => true,
    resumeOk := fun _ => false, ownPid := 1 }

/-- A session tracking the shell process under pid 7. -/
def stC4 : SuspendService :=
  { SuspendService.init with explorer_pid := some 7 }

/-- A world in which every resume attempt succeeds. -/
def envC4w : Env :=
  { psutil_available := true, ctypes_available := true, procs := [],
    openOk := fun _ => true, suspendOk := fun _ => true,
    resumeOk := fun _ => true, ownPid := 1 }

/-- A detector with the default configuration (`auto_optimize = True`)
and both callbacks registered, before its first tick. -/
def detStC5 : GameDetectorService :=
  { auto_optimize := true, has_on_game_detected := true,
    has_on_game_closed := true, detected_games := [] }

/-- Snapshot {A}: Apex Legends (catalog executable r5apex.exe). -/
def snapC5A : List ProcessRecord := [⟨100, "r5apex.exe"⟩]

/-- Snapshot {A, B}: Apex Legends and Counter-Strike 2 (cs2.exe). -/
def snapC5AB : List ProcessRecord :=
  [⟨100, "r5apex.exe"⟩, ⟨200, "cs2.exe"⟩]

/-- Snapshot {B}: Counter-Strike 2 only. -/
def snapC5B : List ProcessRecord := [⟨200, "cs2.exe"⟩]

/-- A detector with a registered detected-callback but auto-optimize
switched off, before its first tick. -/
def detStC6 : GameDetectorService :=
  { auto_optimize := false, has_on_game_detected := true,
    has_on_game_closed := true, detected_games := [] }

/-- A world whose only process is the caller's own (pid 42 =
`os.getpid()`), whose executable name matches the background category
catalog case-insensitively; every OS call succeeds. -/
def envC7 : Env :=
  { psutil_available := true, ctypes_available := true,
    procs := [⟨42, "discord.exe"⟩], openOk := fun _ => true,
    suspendOk := fun _ => true, resumeOk := fun _ => true, ownPid := 42 }

/-- A freshly constructed service reconfigured so that only the
background category is requested. -/
def stC7 : SuspendService :=
  { SuspendService.init with
    suspend_explorer := false, suspend_browsers := false,
    suspend_launchers := false, suspend_background := true }

/-- A world in which every `OpenProcess` call fails. -/
def envC8 : Env :=
  { psutil_available := true, ctypes_available := true, procs := [],
    openOk := fun _ => false, suspendOk := fun _ => true,
    resumeOk := fun _ => true, ownPid := 1 }

/-- An arbitrary fully functional world with no processes. -/
def envC9 : Env :=
  { psutil_available := true, ctypes_available := true, procs := [],
    openOk := fun _ => true, suspendOk := fun _ => true,
    resumeOk := fun _ => true, ownPid := 1 }

/-- A world with browser and background processes present, to show the
disabled service touches none of them. -/
def envC10 : Env :=
  { psutil_available := true, ctypes_available := true,
    procs := [⟨5, "chrome.exe"⟩, ⟨6, "Discord.exe"⟩],
    openOk := fun _ => true, suspendOk := fun _ => true,
    resumeOk := fun _ => true, ownPid := 1 }

/-- A service whose `enabled` flag has been switched off. -/
def stC10 : SuspendService :=
  { SuspendService.init with enabled := false }

/-! ### Claim theorems -/

/-- Claim C1 (the code contradicts it): on a default-constructed service
— any toggle combination with `suspend_explorer`, `suspend_browsers` or
`suspend_launchers` truthy behaves the same — `activate_game_mode` does
not return a result dictionary at all: the boolean toggle attribute
shadows the method of the same name, so `self.suspend_explorer()` raises
`TypeError` to the caller, for every process population. -/
theorem activate_game_mode_raises_on_default_toggles (env : Env) :
    SuspendService.activate_game_mode env SuspendService.init
      = .error .typeError := rfl

/-- Claim C2 counterexample: with only the background category enabled
(the only category whose suspension is reachable), two consecutive
`activate_game_mode` calls on the same session both invoke the suspend
primitive on pid 5 — the trace of each call is `[5]` — even though pid 5
is already in SuspendedSet when the second call starts.  The suspend
primitive is therefore invoked twice per identifier, not at most once. -/
theorem activate_twice_double_suspend_counterexample :
    SuspendService.activate_game_mode envC2 stC2
      = .ok (.activated false 0 0 1 1,
          { stC2 with suspended_pids := [5] }, [5]) ∧
    5 ∈ ({ stC2 with suspended_pids := [5] } : SuspendService).suspended_pids ∧
    SuspendService.activate_game_mode envC2 { stC2 with suspended_pids := [5] }
      = .ok (.activated false 0 0 1 1,
          { stC2 with suspended_pids := [5] }, [5]) := by
  refine ⟨by decide, by decide, by decide⟩

/-- Claim C2 (amended): `activate_game_mode` never consults SuspendedSet
when deciding which identifiers to pass to the suspend primitive.  For
every toggle combination that does not raise (explorer, browsers and
launchers off), two consecutive calls produce the same suspend-primitive
trace — the category resolution of the live process population —
so identifiers already tracked are re-attempted rather than skipped. -/
theorem activate_twice_reattempts_tracked (env : Env) (st : SuspendService)
    (h1 : st.enabled = true) (h2 : st.suspend_explorer = false)
    (h3 : st.suspend_browsers = false) (h4 : st.suspend_launchers = false) :
    ∃ r₁ st₁ r₂ st₂,
      SuspendService.activate_game_mode env st
        = .ok (r₁, st₁,
            if st.suspend_background then
              SuspendService.getPidsByName env BACKGROUND_PROCESSES
            else []) ∧
      SuspendService.activate_game_mode env st₁
        = .ok (r₂, st₂,
            if st.suspend_background then
              SuspendService.getPidsByName env BACKGROUND_PROCESSES
            else []) := by
  obtain ⟨r₁, st₁, hc₁, he, hx, hbr, hl, hbg⟩ :=
    SuspendService.activate_nonraising_shape env st h1 h2 h3 h4
  obtain ⟨r₂, st₂, hc₂, _, _, _, _, _⟩ :=
    SuspendService.activate_nonraising_shape env st₁ he hx hbr hl
  rw [hbg] at hc₂
  exact ⟨r₁, st₁, r₂, st₂, hc₁, hc₂⟩

/-- Witness for the amended C2 theorem at the concrete fixture. -/
theorem activate_twice_reattempts_tracked_witness :
    stC2.enabled = true ∧
    ∃ r₁ st₁ r₂ st₂,
      SuspendService.activate_game_mode envC2 stC2
        = .ok (r₁, st₁,
            if stC2.suspend_background then
              SuspendService.getPidsByName envC2 BACKGROUND_PROCESSES
            else []) ∧
      SuspendService.activate_game_mode envC2 st₁
        = .ok (r₂, st₂,
            if stC2.suspend_background then
              SuspendService.getPidsByName envC2 BACKGROUND_PROCESSES
            else []) :=
  ⟨rfl, activate_twice_reattempts_tracked envC2 stC2 rfl rfl rfl rfl⟩

/-- Claim C3 counterexample: deactivating a session that tracks pid 5 in
a world where the resume fails counts the failure but leaves pid 5 in
SuspendedSet — the set is not empty after `deactivate_game_mode`
returns, and the identifier remains tracked. -/
theorem deactivate_leaves_failed_tracked_counterexample :
    (SuspendService.deactivate_game_mode envC3 stC3).1.failed = 1 ∧
    (SuspendService.deactivate_game_mode envC3 stC3).1.resumed = 0 ∧
    (SuspendService.deactivate_game_mode envC3 stC3).2.suspended_pids = [5] := by
  refine ⟨by decide, by decide, by decide⟩

/-- Claim C3 (amended): `deactivate_game_mode` attempts a resume for
every tracked identifier; each success removes the identifier from
SuspendedSet and each failure is counted in the failed count, but a
failed identifier REMAINS tracked: afterwards SuspendedSet consists of
exactly the identifiers whose resume failed. -/
theorem deactivate_removes_only_successes (env : Env) (st : SuspendService)
    (h : st.explorer_pid = none) :
    (SuspendService.deactivate_game_mode env st).2.suspended_pids
      = st.suspended_pids.filter
          (fun p => !SuspendService.resumeSucceeds env p) ∧
    (SuspendService.deactivate_game_mode env st).1.resumed
      = st.suspended_pids.countP
          (fun p => SuspendService.resumeSucceeds env p) ∧
    (SuspendService.deactivate_game_mode env st).1.failed
      = st.suspended_pids.countP
          (fun p => !SuspendService.resumeSucceeds env p) := by
  have hd : SuspendService.deactivate_game_mode env st
      = SuspendService.resumeBatch env st.suspended_pids st ⟨0, 0⟩ := by
    simp [SuspendService.deactivate_game_mode, h]
  rw [hd]
  refine ⟨?_, ?_, ?_⟩
  · rw [SuspendService.resumeBatch_suspended_pids]
    apply List.filter_congr
    intro a ha
    have hc : st.suspended_pids.contains a = true := by simpa using ha
    simp only [hc, Bool.true_and]
  · have := (SuspendService.resumeBatch_counts env st.suspended_pids st ⟨0, 0⟩).1
    simpa using this
  · have := (SuspendService.resumeBatch_counts env st.suspended_pids st ⟨0, 0⟩).2
    simpa using this

/-- Witness for the amended C3 theorem: pid 6 resumes and is removed,
pid 5 fails and remains tracked. -/
theorem deactivate_removes_only_successes_witness :
    stC3w.explorer_pid = none ∧
    ((SuspendService.deactivate_game_mode envC3w stC3w).2.suspended_pids
        = stC3w.suspended_pids.filter
            (fun p => !SuspendService.resumeSucceeds envC3w p) ∧
     (SuspendService.deactivate_game_mode envC3w stC3w).1.resumed
        = stC3w.suspended_pids.countP
            (fun p => SuspendService.resumeSucceeds envC3w p) ∧
     (SuspendService.deactivate_game_mode envC3w stC3w).1.failed
        = stC3w.suspended_pids.countP
            (fun p => !SuspendService.resumeSucceeds envC3w p)) :=
  ⟨rfl, deactivate_removes_only_successes envC3w stC3w rfl⟩

/-- Claim C4 counterexample: the session tracks the shell under pid 7,
the resume fails, and after `deactivate_game_mode` the shell identifier
is still `some 7` — it is NOT cleared regardless of the outcome. -/
theorem deactivate_shell_slot_counterexample :
    (SuspendService.deactivate_game_mode envC4 stC4).1.failed = 1 ∧
    (SuspendService.deactivate_game_mode envC4 stC4).2.explorer_pid
      = some 7 := by
  refine ⟨by decide, by decide⟩

/-- Claim C4 (amended): in `deactivate_game_mode` a tracked shell
identifier is resumed first, but the slot is cleared only when that
resume succeeds; when the resume fails the shell identifier remains
set. -/
theorem deactivate_clears_shell_only_on_success (env : Env)
    (st : SuspendService) (p : Nat) (hp : st.explorer_pid = some p)
    (hp0 : p ≠ 0) :
    (SuspendService.resumeSucceeds env p = true →
      (SuspendService.deactivate_game_mode env st).2.explorer_pid = none) ∧
    (SuspendService.resumeSucceeds env p = false →
      (SuspendService.deactivate_game_mode env st).2.explorer_pid = some p) := by
  constructor <;> intro hs
  · have h1 : SuspendService.resume_explorer env st
        = (true, { (SuspendService.resumeProcess env st p).2 with
            explorer_pid := none }) := by
      simp [SuspendService.resume_explorer, hp, hp0,
        SuspendService.resumeProcess_fst, hs]
    simp only [SuspendService.deactivate_game_mode, hp, hp0, if_false, h1,
      ite_false]
    rw [(SuspendService.resumeBatch_fields env _ _ _).2.2.2.2.2]
    simp
  · have h1 : SuspendService.resume_explorer env st = (false, st) := by
      simp [SuspendService.resume_explorer, hp, hp0,
        SuspendService.resumeProcess_fst, SuspendService.resumeProcess_snd, hs]
    simp only [SuspendService.deactivate_game_mode, hp, hp0, if_false, h1,
      ite_false]
    rw [(SuspendService.resumeBatch_fields env _ _ _).2.2.2.2.2]
    simp [hp]

/-- Witness for the amended C4 theorem at a concrete fixture where the
shell resume succeeds. -/
theorem deactivate_clears_shell_only_on_success_witness :
    stC4.explorer_pid = some 7 ∧ (7 : Nat) ≠ 0 ∧
    ((SuspendService.resumeSucceeds envC4w 7 = true →
       (SuspendService.deactivate_game_mode envC4w stC4).2.explorer_pid
         = none) ∧
     (SuspendService.resumeSucceeds envC4w 7 = false →
       (SuspendService.deactivate_game_mode envC4w stC4).2.explorer_pid
         = some 7)) :=
  ⟨rfl, by decide,
   deactivate_clears_shell_only_on_success envC4w stC4 7 rfl (by decide)⟩

/-- Claim C5: starting from an empty previous detected set, the snapshot
sequence [{A}, {A,B}, {B}, {}] with A = Apex Legends (r5apex.exe) and
B = Counter-Strike 2 (cs2.exe) — under the default configuration
(auto-optimize on, both callbacks registered) — produces exactly
detected(A), then detected(B), then closed(A), then closed(B), one per
tick; after each tick the stored detected set equals that tick's game
set. -/
theorem detector_scripted_sequence :
    GameDetectorService.checkGames true snapC5A detStC5
      = ([.detected "Apex Legends"],
         { detStC5 with detected_games := ["Apex Legends"] }) ∧
    GameDetectorService.checkGames true snapC5AB
        { detStC5 with detected_games := ["Apex Legends"] }
      = ([.detected "Counter-Strike 2"],
         { detStC5 with
            detected_games := ["Apex Legends", "Counter-Strike 2"] }) ∧
    GameDetectorService.checkGames true snapC5B
        { detStC5 with
            detected_games := ["Apex Legends", "Counter-Strike 2"] }
      = ([.closed "Apex Legends"],
         { detStC5 with detected_games := ["Counter-Strike 2"] }) ∧
    GameDetectorService.checkGames true []
        { detStC5 with detected_games := ["Counter-Strike 2"] }
      = ([.closed "Counter-Strike 2"],
         { detStC5 with detected_games := [] }) := by
  refine ⟨by decide, by decide, by decide, by decide⟩

/-- Claim C6 counterexample: with auto-optimize off but a
detected-callback registered, a tick that newly sees Apex Legends emits
NO detected notification — the setting suppresses the notification
itself, not merely the caller's response. -/
theorem detector_auto_optimize_off_counterexample :
    GameDetectorService.currentGames snapC5A = ["Apex Legends"] ∧
    detStC6.has_on_game_detected = true ∧
    detStC6.detected_games = [] ∧
    (GameDetectorService.checkGames true snapC5A detStC6).1 = [] := by
  refine ⟨by decide, rfl, rfl, by decide⟩

/-- Claim C6 (amended): a `detected` notification for game `g` is
emitted by a `_check_games` tick exactly when auto-optimize is enabled
AND a detected-callback is registered AND `g` is newly present relative
to the previous tick's set; with auto-optimize off the notification
itself is suppressed. -/
theorem detector_detected_emission_iff (procs : List ProcessRecord)
    (st : GameDetectorService) (g : String) :
    GameEvent.detected g ∈ (GameDetectorService.checkGames true procs st).1 ↔
      (st.auto_optimize = true ∧ st.has_on_game_detected = true ∧
       g ∈ GameDetectorService.currentGames procs ∧
       g ∉ st.detected_games) := by
  simp only [GameDetectorService.checkGames, Bool.not_true,
    Bool.false_eq_true, if_false, ite_false, List.mem_append,
    List.mem_filterMap, List.mem_filter]
  constructor
  · intro h
    rcases h with h | h
    · rcases h with ⟨a, ⟨ha, hnotin⟩, hgate⟩
      by_cases hc : st.auto_optimize && st.has_on_game_detected
      · rw [if_pos hc] at hgate
        cases hgate
        have hc' : st.auto_optimize = true ∧ st.has_on_game_detected = true := by
          simpa using hc
        exact ⟨hc'.1, hc'.2, ha, by simpa using hnotin⟩
      · rw [if_neg hc] at hgate
        cases hgate
    · rcases h with ⟨a, _, hgate⟩
      by_cases hc : st.has_on_game_closed
      · rw [if_pos hc] at hgate
        cases hgate
      · rw [if_neg hc] at hgate
        cases hgate
  · intro ⟨h1, h2, h3, h4⟩
    left
    refine ⟨g, ⟨h3, by simpa using h4⟩, ?_⟩
    rw [if_pos (by simp [h1, h2])]

/-- Claim C7 counterexample: the caller's own process (pid 42,
`os.getpid()`) is named discord.exe, which matches the background
category; category resolution returns it, the suspend primitive is
invoked on it and it enters SuspendedSet — the invariant does not
hold. -/
theorem suspended_set_contains_own_pid_counterexample :
    envC7.ownPid = 42 ∧
    SuspendService.getPidsByName envC7 BACKGROUND_PROCESSES = [42] ∧
    SuspendService.activate_game_mode envC7 stC7
      = .ok (.activated false 0 0 1 1,
          { stC7 with suspended_pids := [42] }, [42]) ∧
    envC7.ownPid ∈
      ({ stC7 with suspended_pids := [42] } : SuspendService).suspended_pids := by
  refine ⟨rfl, by decide, by decide, by decide⟩

/-- Claim C7 (amended): category resolution returns every live process
whose non-empty executable name matches the requested name list
case-insensitively, with no exclusion of the caller's own identifier
(the result does not depend on `ownPid` at all), so SuspendedSet can
come to include the caller's own identifier when its executable name
matches a category pattern. -/
theorem getPidsByName_mem_iff (env : Env) (names : List String)
    (pid : Nat) :
    pid ∈ SuspendService.getPidsByName env names ↔
      (env.psutil_available = true ∧
       ∃ r, r ∈ env.procs ∧ r.pid = pid ∧ r.name ≠ "" ∧
         pyLower r.name ∈ names.map pyLower) := by
  cases hpa : env.psutil_available <;>
    simp only [SuspendService.getPidsByName, hpa, Bool.not_true,
      Bool.not_false, Bool.false_eq_true, if_true, if_false, ite_true,
      ite_false]
  · simp
  · simp only [List.mem_map, List.mem_filter, true_and]
    constructor
    · rintro ⟨a, ⟨haproc, hcond⟩, hapid⟩
      have hc := of_decide_eq_true hcond
      exact ⟨a, haproc, hapid, hc.1, hc.2⟩
    · rintro ⟨a, haproc, hapid, h1, h2⟩
      exact ⟨a, ⟨haproc, decide_eq_true (And.intro h1 h2)⟩, hapid⟩

/-- Claim C8: when opening a handle to the target fails, the suspend
primitive returns failure and the entire service state — SuspendedSet
and the shell identifier included — is unchanged. -/
theorem suspend_process_open_failure_no_side_effects (env : Env)
    (st : SuspendService) (pid : Nat) (h : env.openOk pid = false) :
    SuspendService.suspendProcess env st pid = (false, st) := by
  cases hc : env.ctypes_available <;>
    simp [SuspendService.suspendProcess, hc, h]

/-- Witness for the C8 theorem at a concrete fixture. -/
theorem suspend_process_open_failure_no_side_effects_witness :
    envC8.openOk 3 = false ∧
    SuspendService.suspendProcess envC8 SuspendService.init 3
      = (false, SuspendService.init) :=
  ⟨rfl,
   suspend_process_open_failure_no_side_effects envC8 SuspendService.init 3
     rfl⟩

/-- Claim C9: when SuspendedSet is empty and the shell identifier is
unset, `deactivate_game_mode` returns resumed = 0 and failed = 0 and
leaves the state unchanged. -/
theorem deactivate_empty_is_noop (env : Env) (st : SuspendService)
    (h1 : st.suspended_pids = []) (h2 : st.explorer_pid = none) :
    SuspendService.deactivate_game_mode env st = (⟨0, 0⟩, st) := by
  simp [SuspendService.deactivate_game_mode, SuspendService.resumeBatch,
    h1, h2]

/-- Witness for the C9 theorem on a freshly constructed service. -/
theorem deactivate_empty_is_noop_witness :
    SuspendService.init.suspended_pids = [] ∧
    SuspendService.init.explorer_pid = none ∧
    SuspendService.deactivate_game_mode envC9 SuspendService.init
      = (⟨0, 0⟩, SuspendService.init) :=
  ⟨rfl, rfl, deactivate_empty_is_noop envC9 SuspendService.init rfl rfl⟩

/-- Claim C10: with the enabled flag off, `activate_game_mode` returns
`{"status": "disabled"}` immediately: the suspend primitive is never
invoked (empty trace) and the state — SuspendedSet and the shell
identifier included — is returned unchanged. -/
theorem activate_disabled_is_noop (env : Env) (st : SuspendService)
    (h : st.enabled = false) :
    SuspendService.activate_game_mode env st = .ok (.disabled, st, []) := by
  simp [SuspendService.activate_game_mode, h]

/-- Witness for the C10 theorem at a concrete fixture. -/
theorem activate_disabled_is_noop_witness :
    stC10.enabled = false ∧
    SuspendService.activate_game_mode envC10 stC10
      = .ok (.disabled, stC10, []) :=
  ⟨rfl, activate_disabled_is_noop envC10 stC10 rfl⟩

end OpenGameBoost
